import Mathlib

/-!
Shallow embedding of the optika Django application (src/optika/models.py and
src/optika/views.py): the relational rows are Lean structures, the database is
a record of row lists, and each view function is a state-passing function.
Database statements (save / create / update / delete) run in a small effect
monad `M` that counts writes against an optional fuel supply, so that a
mid-request database failure (fuel exhaustion) and Django’s
`transaction.atomic` rollback semantics are both expressible.  Decimal columns
are embedded as `Rat`, nullable columns as `Option`, datetimes as a `Nat`
clock, and Django’s case-insensitive `__iexact` lookups as comparison of
`String.toLower` images.
-/

/-- Python `value or default` on an optional string: `None` and `""` are falsy. -/
def pyOr (v : Option String) (d : String) : String :=
  match v with
  | some s => if s = "" then d else s
  | none => d

/-- Python `str.strip()`: drop leading and trailing whitespace (embedded as a
structural recursion over the character list). -/
def pyStrip (s : String) : String :=
  ⟨((s.data.dropWhile Char.isWhitespace).reverse.dropWhile Char.isWhitespace).reverse⟩

/-- Lower-casing as used by SQL `LOWER` for `__iexact` lookups (embedded as a
character-wise map). -/
def strLower (s : String) : String := ⟨s.data.map Char.toLower⟩

/-- views.py `_clean_str`: `(value or "").strip()`. -/
def clean_str (v : Option String) : String := pyStrip (pyOr v "")

/-- Truthiness of an optional string (missing session keys are `None`). -/
def optTruthy (v : Option String) : Bool :=
  match v with
  | some s => s ≠ ""
  | none => false

/-- Django `__iexact` on two present strings. -/
def iexact (a b : String) : Bool := strLower a == strLower b

/-- Django `__iexact` between a nullable column and a string: `NULL` matches nothing. -/
def iexactOpt (a : Option String) (b : String) : Bool :=
  match a with
  | some s => iexact s b
  | none => false

/-- The seven per-category product tables of models.py. -/
inductive ProductTable
  | rangsiz | rangli | kapliya | aksessuar | antikompyuter | oprava | gatoviy
  deriving DecidableEq

/-- Which tables have a `rasm` column (every table except `Gatoviy`). -/
def ProductTable.hasRasm (t : ProductTable) : Bool := t != ProductTable.gatoviy

/-- Which tables have a `turi` column (every table except `Gatoviy`). -/
def ProductTable.hasTuri (t : ProductTable) : Bool := t != ProductTable.gatoviy

/-- views.py `CATEGORY_MODEL`: category label to product table. -/
def CATEGORY_MODEL (cat : String) : Option ProductTable :=
  if cat = "Контакт линза" then some ProductTable.rangsiz
  else if cat = "Цветная линза" then some ProductTable.rangli
  else if cat = "Капля" then some ProductTable.kapliya
  else if cat = "Аксессуар" then some ProductTable.aksessuar
  else if cat = "Антикомп" then some ProductTable.antikompyuter
  else if cat = "Оправа" then some ProductTable.oprava
  else if cat = "Готовые" then some ProductTable.gatoviy
  else none

/-- Stored credential of `Users.parol`.  `make_password` output is abstracted as
`hashed raw`; a plaintext value left over from the legacy database is `plain s`.
`check_password` succeeds only on a hashed value for the same raw password, and
a hashed string is never equal (as a python string) to a submitted password. -/
inductive Cred
  | plain (s : String)
  | hashed (s : String)
  deriving DecidableEq

/-- Python truthiness of `user.parol` (an empty stored string is falsy). -/
def credTruthy : Cred → Bool
  | Cred.plain s => s ≠ ""
  | Cred.hashed _ => true

/-- django.contrib.auth.hashers `check_password(raw, encoded)`. -/
def check_password (raw : String) (c : Cred) : Bool :=
  match c with
  | Cred.hashed s => s == raw
  | Cred.plain _ => false

/-- django.contrib.auth.hashers `make_password(raw)`. -/
def make_password (raw : String) : Cred := Cred.hashed raw

/-- Python `user.parol == password` string comparison under the credential
abstraction: only a stored plaintext can equal the submitted password. -/
def credEqRaw (c : Cred) (raw : String) : Bool :=
  match c with
  | Cred.plain s => s == raw
  | Cred.hashed _ => false

/-- models.py `Users` row. -/
structure UserRow where
  id : Nat
  full_name : String
  phone : String
  user_id : String
  parol : Cred
  role : String
  deriving DecidableEq

/-- models.py `Order` row. -/
structure OrderRow where
  id : Nat
  user_id : String
  model : String
  product_id : Nat
  category : Option String
  narx : Option Rat
  dioptriya : Option String
  miqdor : Int
  izoh : String
  filial : String
  is_sent : Bool
  created_at : Nat
  deriving DecidableEq

/-- A row of one of the seven product tables; `table` records which table it
lives in.  `model`, `filial` and `created_at` are `Gatoviy`-only columns and
`rasm` / `turi` are absent from `Gatoviy`; rows of tables lacking a column
simply keep its default value. -/
structure ProductRow where
  table : ProductTable
  id : Nat
  order_id : Int
  user_id : String
  rasm : Option String
  nomi : String
  model : String
  turi : Option String
  dioptriya : Option String
  miqdor : Int
  narx : Option Rat
  izoh : Option String
  category : String
  filial : String
  created_at : Nat
  deriving DecidableEq

/-- models.py `Archive` row. -/
structure ArchiveRow where
  id : Nat
  filial : Option String
  user_full_name : Option String
  created_at : Nat
  is_pdf_downloaded : Bool
  is_telegram_shared : Bool
  deriving DecidableEq

/-- models.py `ArchiveItem` row. -/
structure ArchiveItemRow where
  archive_id : Nat
  category : Option String
  model : Option String
  dioptriya : Option String
  miqdor : Int
  izoh : Option String
  deriving DecidableEq

/-- models.py `TelegramChat` row. -/
structure ChatRow where
  id : Nat
  full_name : String
  chat_id : String
  deriving DecidableEq

/-- The relational database: one list per table, plus the wall clock used for
`timezone.now()`. -/
structure Db where
  users : List UserRow
  orders : List OrderRow
  products : List ProductRow
  archives : List ArchiveRow
  archiveItems : List ArchiveItemRow
  chats : List ChatRow
  now : Nat
  deriving DecidableEq

def emptyDb : Db :=
  { users := [], orders := [], products := [], archives := [],
    archiveItems := [], chats := [], now := 0 }

/-- Auto-increment primary key: one more than the largest id in use. -/
def freshId (ids : List Nat) : Nat := ids.foldr max 0 + 1

def freshOrderId (db : Db) : Nat := freshId (db.orders.map (fun o => o.id))

def freshProductId (db : Db) (t : ProductTable) : Nat :=
  freshId ((db.products.filter (fun p => p.table == t)).map (fun p => p.id))

def freshArchiveId (db : Db) : Nat := freshId (db.archives.map (fun a => a.id))

/-- The Django session dictionary keys the views read and write. -/
structure Session where
  userId : Option String
  fullName : Option String
  role : Option String
  branch : Option String
  deriving DecidableEq

/-- views.py `_get_branch`: `request.session.get("Branch") or "-"`. -/
def get_branch (s : Session) : String := pyOr s.branch "-"

/-- views.py `_get_user_id`: `request.session.get("UserId") or ""`. -/
def get_user_id (s : Session) : String := pyOr s.userId ""

/-- views.py `_get_full_name`: `request.session.get("FullName") or ""`. -/
def get_full_name (s : Session) : String := pyOr s.fullName ""

/-- HTTP responses the embedded views produce. -/
inductive Resp
  | json (success : Bool) (message : String) (status : Nat)
  | redirect (target : String)
  | page (name : String)
  | pdfFile (name : String)
  deriving DecidableEq

/-- views.py `_session_user_or_json_401`. -/
def session_user_or_json_401 (s : Session) : Option Resp :=
  if optTruthy s.userId then none
  else some (Resp.json false "Login qiling (session topilmadi)." 401)

/-- views.py `_admin_or_403`. -/
def admin_or_403 (s : Session) : Option Resp :=
  if s.role == some "Admin" then none
  else some (Resp.json false "Admin ruxsati kerak." 403)

/-- Effect state: the database plus an optional budget of remaining database
writes.  `fuel = none` is normal execution (no write ever fails); `fuel = some k`
lets the k+1-st write raise a database error, to model a mid-request failure. -/
structure Eff where
  db : Db
  fuel : Option Nat

/-- The request effect monad: state passing with a possible database error. -/
def M (α : Type) : Type := Eff → Eff × Option α

def M.pure {α : Type} (a : α) : M α := fun e => (e, some a)

def M.bind {α β : Type} (x : M α) (f : α → M β) : M β := fun e =>
  match x e with
  | (e2, some a) => f a e2
  | (e2, none) => (e2, none)

/-- A read-only ORM query. -/
def dbRead {α : Type} (f : Db → α) : M α := fun e => (e, some (f e.db))

/-- One database write statement (`save` / `create` / `update` / `delete`);
it consumes one unit of fuel and fails when the fuel is exhausted. -/
def dbWrite (f : Db → Db) : M Unit := fun e =>
  match e.fuel with
  | none => ({ e with db := f e.db }, some ())
  | some 0 => (e, none)
  | some (k + 1) => ({ db := f e.db, fuel := some k }, some ())

/-- Django `transaction.atomic`: on an error inside the block the database is
rolled back to its state at block entry and the error propagates. -/
def atomic {α : Type} (x : M α) : M α := fun e =>
  match x e with
  | (e2, some a) => (e2, some a)
  | (e2, none) => ({ e2 with db := e.db }, none)

/-- A python `for` loop over a payload list. -/
def mForEach {α : Type} : List α → (α → M Unit) → M Unit
  | [], _ => M.pure ()
  | a :: rest, f => M.bind (f a) (fun _ => mForEach rest f)

/-- Run a request normally (unlimited fuel, no write fails). -/
def runM (x : M Resp) (db : Db) : Db × Resp :=
  match x { db := db, fuel := none } with
  | (e, some r) => (e.db, r)
  | (e, none) => (e.db, Resp.json false "DB error" 500)

/-- Run a request letting the `fuel + 1`-st database write fail; returns the
final database and whether the request aborted with a database error. -/
def runFail (x : M Resp) (db : Db) (fuel : Nat) : Db × Bool :=
  match x { db := db, fuel := some fuel } with
  | (e, some _) => (e.db, false)
  | (e, none) => (e.db, true)

/-- Merge-key filter of `_merge_save_product_and_order`: same table, same
`user_id`, `category__iexact`, `nomi__iexact`, plus `dioptriya__iexact` and
`turi__iexact` when those arguments are provided and non-empty. -/
def mergeMatches (tbl : ProductTable) (uid category nomi : String)
    (dioptriya turi : Option String) (p : ProductRow) : Bool :=
  p.table == tbl && p.user_id == uid && iexact p.category category &&
    iexact p.nomi nomi &&
    (match dioptriya with
     | some d => if d ≠ "" then iexactOpt p.dioptriya d else true
     | none => true) &&
    (match turi with
     | some t => if t ≠ "" then iexactOpt p.turi t else true
     | none => true)

/-- An `if value is not None: setattr` update of one optional column. -/
def overrideOpt {α : Type} (new old : Option α) : Option α :=
  match new with
  | some v => some v
  | none => old

/-- Like `overrideOpt`, but the assignment only persists when the table has
the column (`g`). -/
def overrideOptIf {α : Type} (g : Bool) (new old : Option α) : Option α :=
  match new with
  | some v => if g then some v else old
  | none => old

/-- The in-place update `_merge_save_product_and_order` performs on an existing
product row: the quantity is increased by the submitted quantity, and each
provided field overwrites the stored one (for columns the table has). -/
def applyMergeUpdate (tbl : ProductTable) (turi dioptriya : Option String)
    (narx : Option Rat) (izoh rasm : Option String) (miqdor : Int)
    (e : ProductRow) : ProductRow :=
  { e with
    miqdor := e.miqdor + miqdor
    turi := overrideOptIf tbl.hasTuri turi e.turi
    dioptriya := overrideOpt dioptriya e.dioptriya
    izoh := overrideOpt izoh e.izoh
    narx := overrideOpt narx e.narx
    rasm := overrideOptIf tbl.hasRasm rasm e.rasm }

/-- `existing.save()`: replace the row with this table and id. -/
def saveProductRow (tbl : ProductTable) (idv : Nat) (e2 : ProductRow) (db : Db) : Db :=
  { db with products := db.products.map (fun p =>
      if p.table == tbl && p.id == idv then e2 else p) }

/-- views.py `_merge_save_product_and_order`: create or merge in the product
table, then create or update the matching unsent `Order` row.  (The
`extra_fields` parameter is only ever used by `save_gatoviy`, which is not
embedded here, and is omitted.) -/
def merge_save_product_and_order (uid branch : String) (tbl : ProductTable)
    (category nomi : String) (miqdor : Int) (turi dioptriya : Option String)
    (narx : Option Rat) (izoh rasm : Option String) : M Unit :=
  M.bind (dbRead (fun db =>
      db.products.find? (mergeMatches tbl uid category nomi dioptriya turi)))
    (fun existing =>
  match existing with
  | some e =>
    let e2 := applyMergeUpdate tbl turi dioptriya narx izoh rasm miqdor e
    M.bind (dbWrite (saveProductRow tbl e.id e2)) (fun _ =>
    M.bind (dbRead (fun db => db.orders.find? (fun o =>
        o.user_id == uid && o.product_id == e.id && iexactOpt o.category category &&
          o.is_sent == false)))
      (fun ord =>
    match ord with
    | some o =>
      dbWrite (fun db => { db with orders := db.orders.map (fun q =>
        if q.id == o.id then
          { q with miqdor := e2.miqdor, izoh := pyOr e2.izoh "-", narx := e2.narx,
                   dioptriya := e2.dioptriya, filial := branch }
        else q) })
    | none =>
      dbWrite (fun db => { db with orders := db.orders ++ [{
        id := freshOrderId db, user_id := uid, product_id := e.id,
        category := some category,
        model := if e2.nomi ≠ "" then e2.nomi else e2.model,
        narx := e2.narx, dioptriya := e2.dioptriya, miqdor := e2.miqdor,
        izoh := pyOr e2.izoh "-", filial := branch, is_sent := false,
        created_at := db.now }] })))
  | none =>
    M.bind (dbRead (fun db => freshProductId db tbl)) (fun pid =>
    M.bind (dbWrite (fun db => { db with products := db.products ++ [{
        table := tbl, id := pid, order_id := 0, user_id := uid,
        rasm := if tbl.hasRasm then rasm else none,
        nomi := nomi, model := "",
        turi := if tbl.hasTuri then turi else none,
        dioptriya := dioptriya, miqdor := miqdor, narx := narx, izoh := izoh,
        category := category, filial := "-", created_at := db.now }] }))
      (fun _ =>
    dbWrite (fun db => { db with orders := db.orders ++ [{
        id := freshOrderId db, user_id := uid, product_id := pid,
        category := some category,
        model := if nomi ≠ "" then nomi else "",
        narx := narx, dioptriya := dioptriya, miqdor := miqdor,
        izoh := pyOr izoh "-", filial := branch, is_sent := false,
        created_at := db.now }] }))))

/-- One payload dict of a bulk save endpoint, after JSON parsing: the views
read each key under both spellings (`nomi` / `Nomi`), which is collapsed here,
and scalar coercions (`_to_int`, `_to_decimal_or_none`) yield the typed fields. -/
structure SaveItem where
  nomi : Option String
  dioptriya : Option String
  turi : Option String
  category : Option String
  izoh : Option String
  miqdor : Option Int
  narx : Option Rat
  rasm : Option String
  deriving DecidableEq

/-- Loop body of views.py `save_rangsiz` for one payload item. -/
def rangsizStep (uid branch : String) (it : SaveItem) : M Unit :=
  let nomi := clean_str it.nomi
  let dioptriya := clean_str it.dioptriya
  let turi := clean_str it.turi
  let category :=
    let c := pyStrip (pyOr it.category "Контакт линза")
    if c = "" then "Контакт линза" else c
  let izoh := pyOr it.izoh ""
  let miqdor := it.miqdor.getD 0
  if nomi = "" ∨ miqdor ≤ 0 then M.pure () else
    merge_save_product_and_order uid branch ProductTable.rangsiz category nomi miqdor
      (if turi = "" then none else some turi)
      (if dioptriya = "" then none else some dioptriya)
      it.narx (some izoh) it.rasm

/-- views.py `save_rangsiz` (POST): session gate, payload validation, then the
merge loop inside one `transaction.atomic` block. -/
def save_rangsizM (sess : Session) (payload : Option (List SaveItem)) : M Resp :=
  match session_user_or_json_401 sess with
  | some r => M.pure r
  | none =>
    match payload with
    | none => M.pure (Resp.json false "Hech narsa tanlanmadi!" 400)
    | some [] => M.pure (Resp.json false "Hech narsa tanlanmadi!" 400)
    | some items =>
      M.bind (atomic (mForEach items (rangsizStep (get_user_id sess) (get_branch sess))))
        (fun _ => M.pure (Resp.json true "Rangsiz linzalar saqlandi" 200))

def save_rangsiz (db : Db) (sess : Session) (payload : Option (List SaveItem)) :
    Db × Resp :=
  runM (save_rangsizM sess payload) db

/-- Loop body of views.py `save_oprava` for one payload item. -/
def opravaStep (uid branch : String) (it : SaveItem) : M Unit :=
  let nomi := clean_str it.nomi
  let turi := clean_str it.turi
  let miqdor := it.miqdor.getD 0
  let izoh := pyOr it.izoh ""
  if nomi = "" ∨ miqdor ≤ 0 then M.pure () else
    merge_save_product_and_order uid branch ProductTable.oprava "Оправа" nomi miqdor
      (if turi = "" then none else some turi) none none (some izoh) none

/-- views.py `save_oprava` (POST). -/
def save_opravaM (sess : Session) (payload : Option (List SaveItem)) : M Resp :=
  match session_user_or_json_401 sess with
  | some r => M.pure r
  | none =>
    match payload with
    | none => M.pure (Resp.json false "Hech narsa tanlanmadi!" 400)
    | some [] => M.pure (Resp.json false "Hech narsa tanlanmadi!" 400)
    | some items =>
      M.bind (atomic (mForEach items (opravaStep (get_user_id sess) (get_branch sess))))
        (fun _ => M.pure (Resp.json true "Opravalar saqlandi" 200))

def save_oprava (db : Db) (sess : Session) (payload : Option (List SaveItem)) :
    Db × Resp :=
  runM (save_opravaM sess payload) db

/-- Parsed JSON body of `save_profile_row` (`none` for a missing / malformed /
non-dict body, absent keys as `none` fields). -/
structure ProfileBody where
  Id : Option Int
  Miqdor : Option Int
  Izoh : Option String
  Category : Option String
  deriving DecidableEq

/-- views.py `save_profile_row` (POST): updates the unsent `Order` row, then —
outside any transaction — the product-table row picked through
`CATEGORY_MODEL` from the request category (falling back to the order’s). -/
def save_profile_rowM (sess : Session) (body : Option ProfileBody) : M Resp :=
  match session_user_or_json_401 sess with
  | some r => M.pure r
  | none =>
    match body with
    | none => M.pure (Resp.json false "JSON xato formatda." 400)
    | some data =>
      let row_id := data.Id.getD 0
      let miqdor := data.Miqdor.getD 0
      let izoh := pyOr data.Izoh "-"
      let category := clean_str data.Category
      if row_id ≤ 0 then M.pure (Resp.json false "Id noto‘g‘ri." 400)
      else
        M.bind (dbRead (fun db => db.orders.find? (fun o =>
            (o.id : Int) == row_id && o.user_id == get_user_id sess &&
              o.is_sent == false)))
          (fun ord =>
        match ord with
        | none => M.pure (Resp.json false "Buyurtma topilmadi." 404)
        | some o =>
          M.bind (dbWrite (fun db => { db with orders := db.orders.map (fun q =>
              if q.id == o.id then { q with miqdor := max 0 miqdor, izoh := izoh }
              else q) }))
            (fun _ =>
          let cat := if category ≠ "" then category else pyOr o.category ""
          match CATEGORY_MODEL cat with
          | some tbl =>
            M.bind (dbWrite (fun db => { db with products := db.products.map (fun p =>
                if p.table == tbl && p.id == o.product_id then
                  { p with miqdor := max 0 miqdor, izoh := some izoh }
                else p) }))
              (fun _ => M.pure (Resp.json true "" 200))
          | none => M.pure (Resp.json true "" 200)))

def save_profile_row (db : Db) (sess : Session) (body : Option ProfileBody) :
    Db × Resp :=
  runM (save_profile_rowM sess body) db

/-- One payload dict of `delete_rows`. -/
structure DelItem where
  Id : Option Int
  Category : Option String
  deriving DecidableEq

/-- Loop body of views.py `delete_rows` for one payload item: delete the
product row (through `CATEGORY_MODEL`) and then the order row. -/
def delStep (uid : String) (it : DelItem) : M Unit :=
  let row_id := it.Id.getD 0
  if row_id ≤ 0 then M.pure () else
    M.bind (dbRead (fun db => db.orders.find? (fun o =>
        (o.id : Int) == row_id && o.user_id == uid && o.is_sent == false)))
      (fun ord =>
    match ord with
    | none => M.pure ()
    | some o =>
      let cat := pyOr o.category (clean_str it.Category)
      M.bind (match CATEGORY_MODEL cat with
        | some tbl => dbWrite (fun db =>
            { db with products := db.products.filter (fun p =>
                !(p.table == tbl && p.id == o.product_id)) })
        | none => M.pure ())
        (fun _ => dbWrite (fun db =>
          { db with orders := db.orders.filter (fun q => q.id != o.id) })))

/-- views.py `delete_rows` (POST). -/
def delete_rowsM (sess : Session) (payload : Option (List DelItem)) : M Resp :=
  match session_user_or_json_401 sess with
  | some r => M.pure r
  | none =>
    match payload with
    | none => M.pure (Resp.json false "Hech narsa tanlanmadi." 400)
    | some [] => M.pure (Resp.json false "Hech narsa tanlanmadi." 400)
    | some items =>
      M.bind (atomic (mForEach items (delStep (get_user_id sess))))
        (fun _ => M.pure (Resp.json true "" 200))

def delete_rows (db : Db) (sess : Session) (payload : Option (List DelItem)) :
    Db × Resp :=
  runM (delete_rowsM sess payload) db

/-- The orders a `mark_as_sent` request selects:
`Order.objects.filter(id__in=order_ids, user_id=user_id, is_sent=False)`. -/
def selOrders (db : Db) (uid : String) (ids : List Int) : List OrderRow :=
  db.orders.filter (fun o =>
    ids.contains (o.id : Int) && o.user_id == uid && o.is_sent == false)

/-- The `ArchiveItem` built from one order in `mark_as_sent`. -/
def mkArchiveItem (aid : Nat) (o : OrderRow) : ArchiveItemRow :=
  { archive_id := aid, category := o.category, model := some o.model,
    dioptriya := o.dioptriya, miqdor := o.miqdor, izoh := some o.izoh }

/-- Per-order clearing step of `mark_as_sent`: delete the product row of the
order’s category table (when the category is a known label), then the order. -/
def msDelStep (o : OrderRow) : M Unit :=
  M.bind (match CATEGORY_MODEL (pyOr o.category "") with
    | some tbl => dbWrite (fun db =>
        { db with products := db.products.filter (fun p =>
            !(p.table == tbl && p.id == o.product_id)) })
    | none => M.pure ())
    (fun _ => dbWrite (fun db =>
      { db with orders := db.orders.filter (fun q => q.id != o.id) }))

/-- views.py `mark_as_sent` (POST): payload is the JSON list of order ids
(each already passed through `_to_int`). -/
def mark_as_sentM (sess : Session) (payload : Option (List Int)) : M Resp :=
  match session_user_or_json_401 sess with
  | some r => M.pure r
  | none =>
    match payload with
    | none => M.pure (Resp.json false "Bo‘sh ro‘yxat." 400)
    | some [] => M.pure (Resp.json false "Bo‘sh ro‘yxat." 400)
    | some vals =>
      let order_ids := vals.filter (fun i => decide (0 < i))
      if order_ids = [] then M.pure (Resp.json false "OrderId noto‘g‘ri." 400)
      else
        M.bind (dbRead (fun db => selOrders db (get_user_id sess) order_ids))
          (fun orders =>
        if orders = [] then M.pure (Resp.json false "Buyurtmalar topilmadi." 404)
        else
          M.bind (atomic (
            M.bind (dbRead freshArchiveId) (fun aid =>
            M.bind (dbWrite (fun db => { db with archives := db.archives ++ [{
                id := aid, filial := some (get_branch sess),
                user_full_name := some (get_full_name sess),
                created_at := db.now, is_pdf_downloaded := true,
                is_telegram_shared := false }] }))
              (fun _ =>
            M.bind (dbWrite (fun db =>
              { db with archiveItems := db.archiveItems ++ orders.map (mkArchiveItem aid) }))
              (fun _ => mForEach orders msDelStep)))))
            (fun _ => M.pure (Resp.json true "Buyurtmalar arxivlandi." 200)))

def mark_as_sent (db : Db) (sess : Session) (payload : Option (List Int)) :
    Db × Resp :=
  runM (mark_as_sentM sess payload) db

/-- The hashed-credential check of `login_view`: `check_password` guarded by
the `if user.parol:` truthiness test (and the surrounding try/except). -/
def parolOk (u : UserRow) (password : String) : Bool :=
  if credTruthy u.parol then check_password password u.parol else false

/-- The session keys `login_view` sets on success (`Branch` only when the
submitted branch is non-empty). -/
def loginSession (sess : Session) (u : UserRow) (branch : String) : Session :=
  { sess with
    userId := some u.user_id
    fullName := some u.full_name
    role := some u.role
    branch := if branch ≠ "" then some branch else sess.branch }

/-- views.py `login_view` (POST): hashed check first; when it fails but the
stored value equals the submitted plaintext, log in and replace the stored
credential with its hash (the one-time migration); otherwise reject. -/
def login_view (db : Db) (sess : Session)
    (userIdRaw passwordRaw branchRaw : String) : Db × Session × Resp :=
  if pyStrip userIdRaw = "" ∨ pyStrip passwordRaw = "" then
    (db, sess, Resp.json false "ID va parolni kiriting!" 200)
  else
    match db.users.find? (fun u => u.user_id == pyStrip userIdRaw) with
    | none => (db, sess, Resp.json false "Login yoki parol noto‘g‘ri!" 200)
    | some u =>
      if parolOk u (pyStrip passwordRaw) then
        (db, loginSession sess u (pyStrip branchRaw), Resp.json true "" 200)
      else if credEqRaw u.parol (pyStrip passwordRaw) then
        ({ db with users := db.users.map (fun w =>
            if w.id == u.id then
              { w with parol := make_password (pyStrip passwordRaw) }
            else w) },
         loginSession sess u (pyStrip branchRaw), Resp.json true "" 200)
      else (db, sess, Resp.json false "Login yoki parol noto‘g‘ri!" 200)

/-- views.py `index_view`: a page view that redirects to login without a session. -/
def index_view (sess : Session) : Resp :=
  if optTruthy sess.userId then Resp.page "index" else Resp.redirect "login"

/-- Parsed JSON body of `download_archive_pdf`. -/
structure ArchIdBody where
  id : Option Int
  deriving DecidableEq

/-- views.py `download_archive_pdf` (POST): permission gate on branch and full
name for non-admins, then the PDF is served and `is_pdf_downloaded` set. -/
def download_archive_pdf (db : Db) (sess : Session) (body : Option ArchIdBody) :
    Db × Resp :=
  match session_user_or_json_401 sess with
  | some r => (db, r)
  | none =>
    match body with
    | none => (db, Resp.json false "JSON xato." 400)
    | some data =>
      let archive_id := data.id.getD 0
      if archive_id ≤ 0 then (db, Resp.json false "archive id xato." 400)
      else
        match db.archives.find? (fun a => (a.id : Int) == archive_id) with
        | none => (db, Resp.json false "Arxiv topilmadi." 404)
        | some a =>
          if sess.role != some "Admin" &&
              (a.filial != some (get_branch sess) ||
               a.user_full_name != some (get_full_name sess)) then
            (db, Resp.json false "Ruxsat yo‘q." 403)
          else
            ({ db with archives := db.archives.map (fun w =>
                if w.id == a.id then { w with is_pdf_downloaded := true } else w) },
             Resp.pdfFile "archive.pdf")

/-- Outcome of one Telegram `sendDocument` call: a raised exception, or a
reply with its HTTP `r.ok` and JSON `ok` flags. -/
inductive SendOutcome
  | exc
  | reply (rok : Bool) (jok : Bool)
  deriving DecidableEq

/-- Whether the loop of `share_all_archives_telegram` counts this chat as a
successful send: no exception, HTTP ok, and JSON `ok` true. -/
def sendOk (world : String → SendOutcome) (ch : ChatRow) : Bool :=
  match world ch.chat_id with
  | SendOutcome.reply true true => true
  | _ => false

/-- views.py `share_all_archives_telegram` (POST): admin-only; sends the PDF to
every configured chat, counting successes (`world` gives each chat’s outcome);
on at least one success all archives are flagged `is_telegram_shared`. -/
def share_all_archives_telegram (db : Db) (sess : Session) (token : Option String)
    (world : String → SendOutcome) : Db × Resp :=
  match session_user_or_json_401 sess with
  | some r => (db, r)
  | none =>
    match admin_or_403 sess with
    | some r => (db, r)
    | none =>
      if !optTruthy token then
        (db, Resp.json false "TELEGRAM_BOT_TOKEN topilmadi." 500)
      else if db.chats = [] then
        (db, Resp.json false "Telegram chat IDlar yo‘q." 400)
      else
        let ok_count := db.chats.countP (sendOk world)
        if ok_count = 0 then (db, Resp.json false "Telegramga yuborilmadi." 500)
        else
          ({ db with archives := db.archives.map (fun a =>
              { a with is_telegram_shared := true }) },
           Resp.json true
             ("Telegramga yuborildi (" ++ toString ok_count ++ "/" ++
              toString db.chats.length ++ ")") 200)

/-- Height of an A4 page in points, as reportlab computes it: 297mm · 72/25.4. -/
def a4Height : Rat := 106920 / 127

/-- Drawing events of `_build_table_pdf`, tracking the y coordinate at which
each table header and table row is drawn. -/
inductive PdfEv
  | newPage
  | headerAt (y : Rat)
  | rowAt (y : Rat)
  deriving DecidableEq

/-- `draw_table_header` of `_build_table_pdf`: if fewer than 80 points remain,
start a new page (y := height - 40) first; draw the header and move down 18. -/
def drawTableHeader (y : Rat) : List PdfEv × Rat :=
  if y < 80 then
    ([PdfEv.newPage, PdfEv.headerAt (a4Height - 40)], a4Height - 40 - 18)
  else
    ([PdfEv.headerAt y], y - 18)

/-- The row loop of `_build_table_pdf`: a row reached with y below 60 first
triggers a new page (y := height - 40) and a header redraw, then the row is
drawn at the current y and y moves down by the row height 18. -/
def rowsLoop : List (List String) → Rat → List PdfEv
  | [], _ => []
  | _r :: rest, y =>
    if y < 60 then
      let hdr := drawTableHeader (a4Height - 40)
      (PdfEv.newPage :: hdr.1) ++ (PdfEv.rowAt hdr.2 :: rowsLoop rest (hdr.2 - 18))
    else
      PdfEv.rowAt y :: rowsLoop rest (y - 18)

/-- views.py `_build_table_pdf`: title at y = height - 40 (then -22), one
header line each -14 (then -8), the table header, then the row loop. -/
def build_table_pdf (_title : String) (headerLines : List String)
    (_columns : List (String × Rat)) (rows : List (List String)) : List PdfEv :=
  let y0 := a4Height - 40 - 22 - 14 * (headerLines.length : Rat) - 8
  let hdr := drawTableHeader y0
  hdr.1 ++ rowsLoop rows hdr.2

/-! Concrete rows reused by witnesses and counterexamples. -/

def sessW : Session :=
  { userId := some "u1", fullName := some "Test User", role := some "User",
    branch := some "B1" }

def itemW : SaveItem :=
  { nomi := some "Acme", dioptriya := none, turi := none, category := none,
    izoh := none, miqdor := some 1, narx := none, rasm := none }

def ordK : OrderRow :=
  { id := 1, user_id := "u1", model := "K1", product_id := 5,
    category := some "Капля", narx := none, dioptriya := none, miqdor := 1,
    izoh := "-", filial := "B1", is_sent := false, created_at := 0 }

def prodK : ProductRow :=
  { table := ProductTable.kapliya, id := 5, order_id := 0, user_id := "u1",
    rasm := none, nomi := "K1", model := "", turi := none, dioptriya := none,
    miqdor := 1, narx := none, izoh := none, category := "Капля", filial := "-",
    created_at := 0 }

def dbK : Db := { emptyDb with orders := [ordK], products := [prodK] }

def bodyK : ProfileBody :=
  { Id := some 1, Miqdor := some 7, Izoh := some "z", Category := none }

def prodO : ProductRow := { prodK with table := ProductTable.oprava, category := "Оправа" }

def dbK2 : Db := { emptyDb with orders := [ordK], products := [prodK, prodO] }

def bodyK2 : ProfileBody :=
  { Id := some 1, Miqdor := some 3, Izoh := some "x", Category := some "Оправа" }

def userU : UserRow :=
  { id := 1, full_name := "U One", phone := "", user_id := "u1",
    parol := Cred.plain "pw", role := "User" }

def dbU : Db := { emptyDb with users := [userU] }

def sessN : Session := { userId := none, fullName := none, role := none, branch := none }

def chat1 : ChatRow := { id := 1, full_name := "C1", chat_id := "100" }

def chat2 : ChatRow := { id := 2, full_name := "C2", chat_id := "200" }

def arch1 : ArchiveRow :=
  { id := 1, filial := some "B2", user_full_name := some "Test User",
    created_at := 0, is_pdf_downloaded := false, is_telegram_shared := false }

def arch2 : ArchiveRow :=
  { id := 2, filial := some "B1", user_full_name := some "Test User",
    created_at := 0, is_pdf_downloaded := false, is_telegram_shared := false }

def dbA : Db := { emptyDb with archives := [arch1, arch2], chats := [chat1, chat2] }

def bodyA1 : ArchIdBody := { id := some 1 }

def sessAdm : Session :=
  { userId := some "a1", fullName := some "Admin One", role := some "Admin",
    branch := some "HQ" }

/-- A messaging world in which only chat id "100" answers successfully. -/
def worldOne : String → SendOutcome :=
  fun c => if c = "100" then SendOutcome.reply true true else SendOutcome.exc

/-- Sequential effect of the `mark_as_sent` clearing loop on one order (the
pure shape of `msDelStep` under unlimited fuel). -/
def msDelOne (o : OrderRow) (db : Db) : Db :=
  let db2 := match CATEGORY_MODEL (pyOr o.category "") with
    | some tbl => { db with products := db.products.filter (fun p =>
        !(p.table == tbl && p.id == o.product_id)) }
    | none => db
  { db2 with orders := db2.orders.filter (fun q => q.id != o.id) }

/-- The clearing loop of `mark_as_sent` over the selected orders. -/
def msDelAll : List OrderRow → Db → Db
  | [], db => db
  | o :: rest, db => msDelAll rest (msDelOne o db)

/-! Atomicity: requests whose writes all sit inside one `transaction.atomic`
block leave the database untouched whenever a write fails. -/

/-- A request rolls back: whenever some database write fails mid-request, the
final database equals the database before the request. -/
def RollsBack (x : M Resp) : Prop :=
  ∀ db fuel, (runFail x db fuel).2 = true → (runFail x db fuel).1 = db

theorem atomic_rollback {α : Type} (x : M α) (e : Eff)
    (h : (atomic x e).2 = none) : (atomic x e).1.db = e.db := by
  unfold atomic at *
  rcases hx : x e with ⟨e2, o⟩
  rw [hx] at h
  cases o with
  | none => rfl
  | some a => exact Option.noConfusion h

theorem rollsBack_pure (r : Resp) : RollsBack (M.pure r) := by
  intro db fuel h
  simp [runFail, M.pure] at h

theorem rollsBack_guarded (body : M Unit) (r : Resp) :
    RollsBack (M.bind (atomic body) (fun _ => M.pure r)) := by
  intro db fuel h
  have hroll := atomic_rollback body { db := db, fuel := some fuel }
  unfold runFail M.bind at h ⊢
  rcases ha : atomic body { db := db, fuel := some fuel } with ⟨e2, o⟩
  rw [ha] at h hroll
  cases o with
  | some a => exact Bool.noConfusion h
  | none => simpa using hroll rfl

theorem rollsBack_bind_read {α : Type} (g : Db → α) (f : α → M Resp)
    (hf : ∀ a, RollsBack (f a)) : RollsBack (M.bind (dbRead g) f) :=
  fun db fuel h => hf (g db) db fuel h

theorem save_rangsizM_rollsBack (sess : Session) (p : Option (List SaveItem)) :
    RollsBack (save_rangsizM sess p) := by
  unfold save_rangsizM
  cases session_user_or_json_401 sess with
  | some r => exact rollsBack_pure r
  | none =>
    rcases p with _ | (_ | ⟨a, l⟩)
    · exact rollsBack_pure _
    · exact rollsBack_pure _
    · exact rollsBack_guarded _ _

theorem save_opravaM_rollsBack (sess : Session) (p : Option (List SaveItem)) :
    RollsBack (save_opravaM sess p) := by
  unfold save_opravaM
  cases session_user_or_json_401 sess with
  | some r => exact rollsBack_pure r
  | none =>
    rcases p with _ | (_ | ⟨a, l⟩)
    · exact rollsBack_pure _
    · exact rollsBack_pure _
    · exact rollsBack_guarded _ _

theorem delete_rowsM_rollsBack (sess : Session) (p : Option (List DelItem)) :
    RollsBack (delete_rowsM sess p) := by
  unfold delete_rowsM
  cases session_user_or_json_401 sess with
  | some r => exact rollsBack_pure r
  | none =>
    rcases p with _ | (_ | ⟨a, l⟩)
    · exact rollsBack_pure _
    · exact rollsBack_pure _
    · exact rollsBack_guarded _ _

theorem mark_as_sentM_rollsBack (sess : Session) (p : Option (List Int)) :
    RollsBack (mark_as_sentM sess p) := by
  unfold mark_as_sentM
  cases session_user_or_json_401 sess with
  | some r => exact rollsBack_pure r
  | none =>
    rcases p with _ | (_ | ⟨v, vs⟩)
    · exact rollsBack_pure _
    · exact rollsBack_pure _
    · by_cases hids : (v :: vs).filter (fun i => decide (0 < i)) = []
      · simp only [hids, if_pos]
        exact rollsBack_pure _
      · simp only [if_neg hids]
        apply rollsBack_bind_read
        intro orders
        by_cases ho : orders = []
        · simp only [if_pos ho]
          exact rollsBack_pure _
        · simp only [if_neg ho]
          exact rollsBack_guarded _ _

/-- C2 (amended): the bulk save endpoints (embedded here through `save_rangsiz`
and `save_oprava`), `delete_rows` and `mark_as_sent` wrap all their writes in
one `transaction.atomic` block, so a database failure at any write leaves the
database exactly as before the request.  (`save_profile_row` is not among
them: see its counterexample.) -/
theorem cart_mutations_one_transaction :
    (∀ sess p db fuel, (runFail (save_rangsizM sess p) db fuel).2 = true →
        (runFail (save_rangsizM sess p) db fuel).1 = db) ∧
    (∀ sess p db fuel, (runFail (save_opravaM sess p) db fuel).2 = true →
        (runFail (save_opravaM sess p) db fuel).1 = db) ∧
    (∀ sess p db fuel, (runFail (delete_rowsM sess p) db fuel).2 = true →
        (runFail (delete_rowsM sess p) db fuel).1 = db) ∧
    (∀ sess p db fuel, (runFail (mark_as_sentM sess p) db fuel).2 = true →
        (runFail (mark_as_sentM sess p) db fuel).1 = db) :=
  ⟨fun sess p => save_rangsizM_rollsBack sess p,
   fun sess p => save_opravaM_rollsBack sess p,
   fun sess p => delete_rowsM_rollsBack sess p,
   fun sess p => mark_as_sentM_rollsBack sess p⟩

theorem cart_mutations_one_transaction_witness :
    (runFail (save_rangsizM sessW (some [itemW])) emptyDb 0).2 = true ∧
    (runFail (save_rangsizM sessW (some [itemW])) emptyDb 0).1 = emptyDb :=
  ⟨by decide,
   cart_mutations_one_transaction.1 sessW (some [itemW]) emptyDb 0 (by decide)⟩

/-- C2 counterexample: `save_profile_row` performs its two writes (the `Order`
row save and the product-table update) with no transaction around them: a
failure at the second write aborts the request while the `Order` write
persists, so the database is not as it was before the request. -/
theorem save_profile_row_not_atomic :
    (runFail (save_profile_rowM sessW (some bodyK)) dbK 1).2 = true ∧
    (runFail (save_profile_rowM sessW (some bodyK)) dbK 1).1 ≠ dbK := by
  constructor
  · decide
  · decide

/-! The `mark_as_sent` archive snapshot: copy then delete. -/

theorem msDelStep_run (o : OrderRow) (db : Db) :
    msDelStep o { db := db, fuel := none } =
      ({ db := msDelOne o db, fuel := none }, some ()) := by
  unfold msDelStep msDelOne
  cases hc : CATEGORY_MODEL (pyOr o.category "") <;>
    simp [hc, M.bind, dbWrite, M.pure]

theorem mForEach_msDel (l : List OrderRow) (db : Db) :
    mForEach l msDelStep { db := db, fuel := none } =
      ({ db := msDelAll l db, fuel := none }, some ()) := by
  induction l generalizing db with
  | nil => rfl
  | cons o rest ih =>
    show M.bind (msDelStep o) (fun _ => mForEach rest msDelStep) _ = _
    unfold M.bind
    rw [msDelStep_run]
    exact ih (msDelOne o db)

theorem msDelOne_orders (o : OrderRow) (db : Db) :
    (msDelOne o db).orders = db.orders.filter (fun q => q.id != o.id) := by
  unfold msDelOne
  cases hc : CATEGORY_MODEL (pyOr o.category "") <;> simp [hc]

theorem msDelOne_archives (o : OrderRow) (db : Db) :
    (msDelOne o db).archives = db.archives := by
  unfold msDelOne
  cases hc : CATEGORY_MODEL (pyOr o.category "") <;> simp [hc]

theorem msDelOne_archiveItems (o : OrderRow) (db : Db) :
    (msDelOne o db).archiveItems = db.archiveItems := by
  unfold msDelOne
  cases hc : CATEGORY_MODEL (pyOr o.category "") <;> simp [hc]

theorem msDelOne_products_sub {p : ProductRow} {o : OrderRow} {db : Db}
    (h : p ∈ (msDelOne o db).products) : p ∈ db.products := by
  unfold msDelOne at h
  cases hc : CATEGORY_MODEL (pyOr o.category "") <;> rw [hc] at h
  · exact h
  · exact (List.mem_filter.mp h).1

theorem msDelOne_products_del {p : ProductRow} {o : OrderRow} {db : Db} {tbl : ProductTable}
    (hc : CATEGORY_MODEL (pyOr o.category "") = some tbl)
    (h : p ∈ (msDelOne o db).products) : ¬(p.table = tbl ∧ p.id = o.product_id) := by
  unfold msDelOne at h
  rw [hc] at h
  have h2 := (List.mem_filter.mp h).2
  simp at h2
  intro hcon
  rcases h2 with h1 | h1
  · exact h1 hcon.1
  · exact h1 hcon.2

theorem msDelAll_archives (l : List OrderRow) (db : Db) :
    (msDelAll l db).archives = db.archives := by
  induction l generalizing db with
  | nil => rfl
  | cons o rest ih => rw [msDelAll, ih, msDelOne_archives]

theorem msDelAll_archiveItems (l : List OrderRow) (db : Db) :
    (msDelAll l db).archiveItems = db.archiveItems := by
  induction l generalizing db with
  | nil => rfl
  | cons o rest ih => rw [msDelAll, ih, msDelOne_archiveItems]

theorem msDelAll_orders_sub {q : OrderRow} (l : List OrderRow) (db : Db)
    (h : q ∈ (msDelAll l db).orders) : q ∈ db.orders := by
  induction l generalizing db with
  | nil => exact h
  | cons o rest ih =>
    have h2 := ih (msDelOne o db) h
    rw [msDelOne_orders] at h2
    exact (List.mem_filter.mp h2).1

theorem msDelAll_products_sub {p : ProductRow} (l : List OrderRow) (db : Db)
    (h : p ∈ (msDelAll l db).products) : p ∈ db.products := by
  induction l generalizing db with
  | nil => exact h
  | cons o rest ih => exact msDelOne_products_sub (ih (msDelOne o db) h)

theorem msDelAll_deletes_order {q o : OrderRow} :
    ∀ (l : List OrderRow) (db : Db), o ∈ l → q ∈ (msDelAll l db).orders → q.id ≠ o.id := by
  intro l
  induction l with
  | nil => intro db hmem; cases hmem
  | cons o0 rest ih =>
    intro db hmem h
    rcases List.mem_cons.mp hmem with h0 | h0
    · subst h0
      have h2 := msDelAll_orders_sub rest (msDelOne o db) h
      rw [msDelOne_orders] at h2
      have h3 := (List.mem_filter.mp h2).2
      simpa using h3
    · exact ih (msDelOne o0 db) h0 h

theorem msDelAll_deletes_product {p : ProductRow} {o : OrderRow} {tbl : ProductTable} :
    ∀ (l : List OrderRow) (db : Db), o ∈ l →
      CATEGORY_MODEL (pyOr o.category "") = some tbl →
      p ∈ (msDelAll l db).products → ¬(p.table = tbl ∧ p.id = o.product_id) := by
  intro l
  induction l with
  | nil => intro db hmem; cases hmem
  | cons o0 rest ih =>
    intro db hmem hc h
    rcases List.mem_cons.mp hmem with h0 | h0
    · subst h0
      exact msDelOne_products_del hc (msDelAll_products_sub rest (msDelOne o db) h)
    · exact ih (msDelOne o0 db) h0 hc h

theorem mark_as_sent_run (db : Db) (sess : Session) (vals : List Int)
    (hlog : optTruthy sess.userId = true)
    (hids : vals.filter (fun i => decide (0 < i)) ≠ [])
    (hsel : selOrders db (get_user_id sess) (vals.filter (fun i => decide (0 < i))) ≠ []) :
    mark_as_sent db sess (some vals) =
      (msDelAll (selOrders db (get_user_id sess) (vals.filter (fun i => decide (0 < i))))
        { db with
          archives := db.archives ++ [{
            id := freshArchiveId db, filial := some (get_branch sess),
            user_full_name := some (get_full_name sess), created_at := db.now,
            is_pdf_downloaded := true, is_telegram_shared := false }],
          archiveItems := db.archiveItems ++
            (selOrders db (get_user_id sess) (vals.filter (fun i => decide (0 < i)))).map
              (mkArchiveItem (freshArchiveId db)) },
       Resp.json true "Buyurtmalar arxivlandi." 200) := by
  have hses : session_user_or_json_401 sess = none := by
    simp [session_user_or_json_401, hlog]
  rcases vals with _ | ⟨v, vs⟩
  · simp at hids
  · unfold mark_as_sent runM mark_as_sentM
    rw [hses]
    simp only [if_neg hids]
    simp only [M.bind, dbRead, if_neg hsel, atomic, dbWrite, M.pure]
    rw [mForEach_msDel]

/-- C3: for every `mark_as_sent` request whose payload selects a non-empty set
of the caller’s unsent orders, exactly one `Archive` row is appended, one
`ArchiveItem` per selected order copying its category, model, dioptriya,
miqdor and izoh; afterwards every selected order row is gone and so is the
product-table row it references via `CATEGORY_MODEL` and its `product_id` —
copy-then-delete. -/
theorem mark_as_sent_copy_then_delete (db : Db) (sess : Session) (vals : List Int)
    (hlog : optTruthy sess.userId = true)
    (hids : vals.filter (fun i => decide (0 < i)) ≠ [])
    (hsel : selOrders db (get_user_id sess) (vals.filter (fun i => decide (0 < i))) ≠ []) :
    (mark_as_sent db sess (some vals)).2 = Resp.json true "Buyurtmalar arxivlandi." 200 ∧
    (mark_as_sent db sess (some vals)).1.archives = db.archives ++ [{
        id := freshArchiveId db, filial := some (get_branch sess),
        user_full_name := some (get_full_name sess), created_at := db.now,
        is_pdf_downloaded := true, is_telegram_shared := false }] ∧
    (mark_as_sent db sess (some vals)).1.archiveItems = db.archiveItems ++
      (selOrders db (get_user_id sess) (vals.filter (fun i => decide (0 < i)))).map
        (fun o => { archive_id := freshArchiveId db, category := o.category,
                    model := some o.model, dioptriya := o.dioptriya,
                    miqdor := o.miqdor, izoh := some o.izoh }) ∧
    (∀ o ∈ selOrders db (get_user_id sess) (vals.filter (fun i => decide (0 < i))),
      ∀ q ∈ (mark_as_sent db sess (some vals)).1.orders, q.id ≠ o.id) ∧
    (∀ o ∈ selOrders db (get_user_id sess) (vals.filter (fun i => decide (0 < i))),
      ∀ tbl, CATEGORY_MODEL (pyOr o.category "") = some tbl →
        ∀ p ∈ (mark_as_sent db sess (some vals)).1.products,
          ¬(p.table = tbl ∧ p.id = o.product_id)) := by
  rw [mark_as_sent_run db sess vals hlog hids hsel]
  refine ⟨rfl, ?_, ?_, ?_, ?_⟩
  · rw [msDelAll_archives]
  · rw [msDelAll_archiveItems]
    rfl
  · intro o ho q hq
    exact msDelAll_deletes_order _ _ ho hq
  · intro o ho tbl hc p hp
    exact msDelAll_deletes_product _ _ ho hc hp

theorem mark_as_sent_copy_then_delete_witness :
    (mark_as_sent dbK sessW (some [1])).2 = Resp.json true "Buyurtmalar arxivlandi." 200 ∧
    (mark_as_sent dbK sessW (some [1])).1.archives = dbK.archives ++ [{
        id := freshArchiveId dbK, filial := some (get_branch sessW),
        user_full_name := some (get_full_name sessW), created_at := dbK.now,
        is_pdf_downloaded := true, is_telegram_shared := false }] := by
  have h := mark_as_sent_copy_then_delete dbK sessW [1]
    (by decide) (by decide) (by decide)
  exact ⟨h.1, h.2.1⟩

/-- C4 counterexample: with the single unsent order id 1 of user "u1" in the
cart, the successful `mark_as_sent` request deletes the order outright — the
order table is empty afterwards, so no Order row exists with `is_sent = True`. -/
theorem mark_as_sent_no_is_sent_flag :
    (mark_as_sent dbK sessW (some [1])).2 = Resp.json true "Buyurtmalar arxivlandi." 200 ∧
    (mark_as_sent dbK sessW (some [1])).1.orders = [] ∧
    ¬ ∃ q ∈ (mark_as_sent dbK sessW (some [1])).1.orders, q.id = 1 ∧ q.is_sent = true := by
  refine ⟨by decide, by decide, ?_⟩
  intro ⟨q, hq, _⟩
  rw [show (mark_as_sent dbK sessW (some [1])).1.orders = [] from by decide] at hq
  cases hq

/-- C4 (amended): when a cart line is archived by a successful `mark_as_sent`,
its `Order` row is deleted: no order row with its id remains (the `is_sent`
flag is never set to `True` — the row ceases to exist). -/
theorem mark_as_sent_removes_selected (db : Db) (sess : Session) (vals : List Int)
    (hlog : optTruthy sess.userId = true)
    (hids : vals.filter (fun i => decide (0 < i)) ≠ [])
    (hsel : selOrders db (get_user_id sess) (vals.filter (fun i => decide (0 < i))) ≠ []) :
    ∀ o ∈ selOrders db (get_user_id sess) (vals.filter (fun i => decide (0 < i))),
      ¬ ∃ q ∈ (mark_as_sent db sess (some vals)).1.orders, q.id = o.id := by
  rw [mark_as_sent_run db sess vals hlog hids hsel]
  intro o ho hex
  rcases hex with ⟨q, hq, hid⟩
  exact msDelAll_deletes_order _ _ ho hq hid

theorem mark_as_sent_removes_selected_witness :
    ¬ ∃ q ∈ (mark_as_sent dbK sessW (some [1])).1.orders, q.id = ordK.id :=
  mark_as_sent_removes_selected dbK sessW [1] (by decide) (by decide) (by decide)
    ordK (by decide)

/-! Login: hashed check and the one-time plaintext-to-hash migration. -/

theorem login_find_after_migrate (l : List UserRow) (t : String) (uid : Nat) (c : Cred) :
    (l.map (fun w => if w.id == uid then { w with parol := c } else w)).find?
        (fun u => u.user_id == t) =
      (l.find? (fun u => u.user_id == t)).map
        (fun w => if w.id == uid then { w with parol := c } else w) := by
  induction l with
  | nil => rfl
  | cons a l ih =>
    have huid : (if a.id == uid then { a with parol := c } else a).user_id = a.user_id := by
      by_cases hid : (a.id == uid) = true <;> simp [hid]
    simp only [List.map_cons, List.find?]
    rw [huid]
    cases h : a.user_id == t
    · simpa [h] using ih
    · rfl

theorem parolOk_hashed {u : UserRow} {pw : String}
    (h : parolOk u pw = true) : u.parol = Cred.hashed pw := by
  unfold parolOk at h
  rcases hp : u.parol with s | s <;> rw [hp] at h
  · by_cases ht : credTruthy (Cred.plain s) = true
    · rw [if_pos ht] at h; cases h
    · rw [if_neg (by simpa using ht)] at h; cases h
  · rw [if_pos (by simp [credTruthy])] at h
    unfold check_password at h
    simp at h
    rw [h]

theorem login_success_stored_hash (db : Db) (sess : Session) (uidR pwR brR : String)
    (hsucc : (login_view db sess uidR pwR brR).2.2 = Resp.json true "" 200) :
    ∃ u2, (login_view db sess uidR pwR brR).1.users.find?
        (fun u => u.user_id == pyStrip uidR) = some u2 ∧
      u2.parol = Cred.hashed (pyStrip pwR) := by
  unfold login_view at *
  by_cases hblank : pyStrip uidR = "" ∨ pyStrip pwR = ""
  · rw [if_pos hblank] at hsucc; simp at hsucc
  · rw [if_neg hblank] at hsucc ⊢
    rcases hf : db.users.find? (fun u => u.user_id == pyStrip uidR) with _ | u <;>
      simp only [hf] at hsucc ⊢
    · simp at hsucc
    · by_cases hok : parolOk u (pyStrip pwR) = true
      · simp only [hok, if_true] at hsucc ⊢
        exact ⟨u, hf, parolOk_hashed hok⟩
      · simp only [hok, if_false, Bool.false_eq_true] at hsucc ⊢
        by_cases heq : credEqRaw u.parol (pyStrip pwR) = true
        · simp only [heq, if_true] at hsucc ⊢
          refine ⟨{ u with parol := make_password (pyStrip pwR) }, ?_, rfl⟩
          show (db.users.map _).find? _ = _
          rw [login_find_after_migrate, hf]
          simp
        · simp only [heq, if_false, Bool.false_eq_true] at hsucc
          simp at hsucc

theorem login_blank_fail (db : Db) (sess : Session) (uidR pwR brR : String)
    (hb : pyStrip uidR = "" ∨ pyStrip pwR = "") :
    (login_view db sess uidR pwR brR).2.2 = Resp.json false "ID va parolni kiriting!" 200 := by
  unfold login_view
  rw [if_pos hb]

theorem login_replay (db : Db) (sess : Session) (uidR pwR brR : String)
    (hsucc : (login_view db sess uidR pwR brR).2.2 = Resp.json true "" 200) :
    (login_view (login_view db sess uidR pwR brR).1 sess uidR pwR brR).2.2 =
      Resp.json true "" 200 ∧
    (login_view (login_view db sess uidR pwR brR).1 sess uidR pwR brR).1 =
      (login_view db sess uidR pwR brR).1 := by
  obtain ⟨u2, hf2, hp2⟩ := login_success_stored_hash db sess uidR pwR brR hsucc
  have hblank : ¬(pyStrip uidR = "" ∨ pyStrip pwR = "") := by
    intro hb
    rw [login_blank_fail db sess uidR pwR brR hb] at hsucc
    cases hsucc
  have hok : parolOk u2 (pyStrip pwR) = true := by
    rw [parolOk, hp2]
    simp [credTruthy, check_password]
  constructor
  · conv_lhs => rw [login_view]
    rw [if_neg hblank]
    simp only [hf2, hok, if_true]
  · conv_lhs => rw [login_view]
    rw [if_neg hblank]
    simp only [hf2, hok, if_true]

theorem login_migrates_plaintext (db : Db) (sess : Session) (uidR pwR brR : String)
    (u : UserRow) (s : String)
    (hf : db.users.find? (fun w => w.user_id == pyStrip uidR) = some u)
    (hp : u.parol = Cred.plain s) (hs : s = pyStrip pwR)
    (hu : pyStrip uidR ≠ "") (hpw : pyStrip pwR ≠ "") :
    (login_view db sess uidR pwR brR).2.2 = Resp.json true "" 200 ∧
    (login_view db sess uidR pwR brR).1.users =
      db.users.map (fun w => if w.id == u.id then
        { w with parol := make_password (pyStrip pwR) } else w) := by
  have hblank : ¬(pyStrip uidR = "" ∨ pyStrip pwR = "") := by
    intro hb; rcases hb with hb | hb
    · exact hu hb
    · exact hpw hb
  have hok : parolOk u (pyStrip pwR) = false := by
    rw [parolOk, hp]
    by_cases ht : credTruthy (Cred.plain s) = true <;> simp [ht, check_password]
  have heq : credEqRaw u.parol (pyStrip pwR) = true := by
    rw [hp, hs]
    simp [credEqRaw]
  unfold login_view
  rw [if_neg hblank]
  simp only [hf, hok, heq, if_true, Bool.false_eq_true, if_false]
  exact ⟨trivial, trivial⟩

/-- C5: the login checks the submitted password against the stored credential’s
hash first; when the hash check fails but the stored value equals the submitted
plaintext, the login succeeds and the stored credential is replaced by the hash
of that password; after any successful login the logged-in user’s stored
credential is a hash of the submitted password, and a repeated login with the
same password succeeds with no further change to the user table (the migration
happens exactly once). -/
theorem login_hash_first_with_migration :
    (∀ db sess uidR pwR brR (u : UserRow) (s : String),
      db.users.find? (fun w => w.user_id == pyStrip uidR) = some u →
      u.parol = Cred.plain s → s = pyStrip pwR →
      pyStrip uidR ≠ "" → pyStrip pwR ≠ "" →
      (login_view db sess uidR pwR brR).2.2 = Resp.json true "" 200 ∧
      (login_view db sess uidR pwR brR).1.users =
        db.users.map (fun w => if w.id == u.id then
          { w with parol := make_password (pyStrip pwR) } else w)) ∧
    (∀ db sess uidR pwR brR,
      (login_view db sess uidR pwR brR).2.2 = Resp.json true "" 200 →
      (∃ u2, (login_view db sess uidR pwR brR).1.users.find?
          (fun w => w.user_id == pyStrip uidR) = some u2 ∧
        u2.parol = Cred.hashed (pyStrip pwR)) ∧
      (login_view (login_view db sess uidR pwR brR).1 sess uidR pwR brR).2.2 =
        Resp.json true "" 200 ∧
      (login_view (login_view db sess uidR pwR brR).1 sess uidR pwR brR).1 =
        (login_view db sess uidR pwR brR).1) := by
  constructor
  · intro db sess uidR pwR brR u s hf hp hs hu hpw
    exact login_migrates_plaintext db sess uidR pwR brR u s hf hp hs hu hpw
  · intro db sess uidR pwR brR hsucc
    exact ⟨login_success_stored_hash db sess uidR pwR brR hsucc,
           login_replay db sess uidR pwR brR hsucc⟩

theorem login_hash_first_with_migration_witness :
    (login_view dbU sessN "u1" "pw" "B1").2.2 = Resp.json true "" 200 ∧
    (login_view dbU sessN "u1" "pw" "B1").1.users =
      dbU.users.map (fun w => if w.id == userU.id then
        { w with parol := make_password (pyStrip "pw") } else w) :=
  login_hash_first_with_migration.1 dbU sessN "u1" "pw" "B1" userU "pw"
    (by decide) (by decide) (by decide) (by decide) (by decide)

/-- C6: validation failures return a JSON body with success `false` and a
human-readable message; a JSON endpoint called without a logged-in session
answers HTTP 401, an admin-only JSON endpoint called by a non-admin session
answers HTTP 403, and a page view without a session redirects to the login
page (shown on the embedded endpoints: `save_rangsiz`, `login_view`,
`save_profile_row`, `index_view` and `share_all_archives_telegram`). -/
theorem error_and_auth_responses :
    (∀ db sess p, optTruthy sess.userId = false →
      (save_rangsiz db sess p).2 = Resp.json false "Login qiling (session topilmadi)." 401) ∧
    (∀ db sess, optTruthy sess.userId = true →
      (save_rangsiz db sess none).2 = Resp.json false "Hech narsa tanlanmadi!" 400 ∧
      (save_rangsiz db sess (some [])).2 = Resp.json false "Hech narsa tanlanmadi!" 400) ∧
    (∀ db sess uidR pwR brR, pyStrip uidR = "" ∨ pyStrip pwR = "" →
      (login_view db sess uidR pwR brR).2.2 = Resp.json false "ID va parolni kiriting!" 200) ∧
    (∀ db sess uidR pwR brR, pyStrip uidR ≠ "" → pyStrip pwR ≠ "" →
      db.users.find? (fun u => u.user_id == pyStrip uidR) = none →
      (login_view db sess uidR pwR brR).2.2 = Resp.json false "Login yoki parol noto‘g‘ri!" 200) ∧
    (∀ db sess, optTruthy sess.userId = true →
      (save_profile_row db sess none).2 = Resp.json false "JSON xato formatda." 400) ∧
    (∀ sess, optTruthy sess.userId = false → index_view sess = Resp.redirect "login") ∧
    (∀ db sess token world, optTruthy sess.userId = true → sess.role ≠ some "Admin" →
      (share_all_archives_telegram db sess token world).2 =
        Resp.json false "Admin ruxsati kerak." 403) := by
  refine ⟨?_, ?_, ?_, ?_, ?_, ?_, ?_⟩
  · intro db sess p h
    simp [save_rangsiz, runM, save_rangsizM, session_user_or_json_401, h, M.pure]
  · intro db sess h
    constructor <;>
      simp [save_rangsiz, runM, save_rangsizM, session_user_or_json_401, h, M.pure]
  · intro db sess uidR pwR brR h
    exact login_blank_fail db sess uidR pwR brR h
  · intro db sess uidR pwR brR hu hpw hf
    unfold login_view
    rw [if_neg (by intro hb; rcases hb with hb | hb; exacts [hu hb, hpw hb])]
    simp only [hf]
  · intro db sess h
    simp [save_profile_row, runM, save_profile_rowM, session_user_or_json_401, h, M.pure]
  · intro sess h
    simp [index_view, h]
  · intro db sess token world h hadm
    have hr : (sess.role == some "Admin") = false := by
      simpa using hadm
    simp [share_all_archives_telegram, session_user_or_json_401, admin_or_403, h, hr]

theorem error_and_auth_responses_witness :
    (save_rangsiz emptyDb sessN none).2 =
      Resp.json false "Login qiling (session topilmadi)." 401 ∧
    index_view sessN = Resp.redirect "login" ∧
    (share_all_archives_telegram emptyDb sessW none worldOne).2 =
      Resp.json false "Admin ruxsati kerak." 403 :=
  ⟨error_and_auth_responses.1 emptyDb sessN none (by decide),
   error_and_auth_responses.2.2.2.2.2.1 sessN (by decide),
   error_and_auth_responses.2.2.2.2.2.2 emptyDb sessW none worldOne
     (by decide) (by decide)⟩

/-- C7: in `share_all_archives_telegram` a per-chat failure (exception or
non-ok reply) never aborts the loop — the reported count is the number of
successful outcomes over all configured chats — and the endpoint succeeds,
reporting "successes/chats" and flagging every archive `is_telegram_shared`,
exactly when at least one send succeeded; with zero successes it reports
failure and leaves the database unchanged. -/
theorem share_telegram_success_counts (db : Db) (sess : Session) (token : Option String)
    (world : String → SendOutcome)
    (hlog : optTruthy sess.userId = true) (hadm : sess.role = some "Admin")
    (htok : optTruthy token = true) (hch : db.chats ≠ []) :
    (0 < db.chats.countP (sendOk world) ↔ ∃ ch ∈ db.chats, sendOk world ch = true) ∧
    (db.chats.countP (sendOk world) ≠ 0 →
      share_all_archives_telegram db sess token world =
        ({ db with archives := db.archives.map (fun a =>
            { a with is_telegram_shared := true }) },
         Resp.json true ("Telegramga yuborildi (" ++
           toString (db.chats.countP (sendOk world)) ++ "/" ++
           toString db.chats.length ++ ")") 200)) ∧
    (db.chats.countP (sendOk world) = 0 →
      share_all_archives_telegram db sess token world =
        (db, Resp.json false "Telegramga yuborilmadi." 500)) := by
  have hses : session_user_or_json_401 sess = none := by
    simp [session_user_or_json_401, hlog]
  have hadm2 : admin_or_403 sess = none := by simp [admin_or_403, hadm]
  refine ⟨List.countP_pos_iff, ?_, ?_⟩
  · intro h
    unfold share_all_archives_telegram
    rw [hses, hadm2]
    simp only [htok, Bool.not_true, Bool.false_eq_true, if_false, if_neg hch, if_neg h]
  · intro h
    unfold share_all_archives_telegram
    rw [hses, hadm2]
    simp only [htok, Bool.not_true, Bool.false_eq_true, if_false, if_neg hch, if_pos h]

theorem share_telegram_success_counts_witness :
    share_all_archives_telegram dbA sessAdm (some "T") worldOne =
      ({ dbA with archives := dbA.archives.map (fun a =>
          { a with is_telegram_shared := true }) },
       Resp.json true ("Telegramga yuborildi (" ++
         toString (dbA.chats.countP (sendOk worldOne)) ++ "/" ++
         toString dbA.chats.length ++ ")") 200) :=
  (share_telegram_success_counts dbA sessAdm (some "T") worldOne
    (by decide) (by decide) (by decide) (by decide)).2.1 (by decide)

/-! The PDF table renderer’s manual page-break arithmetic. -/

theorem drawTableHeader_no_row (y z : Rat) :
    PdfEv.rowAt z ∉ (drawTableHeader y).1 := by
  unfold drawTableHeader
  by_cases h : y < 80 <;> simp [h]

theorem rowsLoop_rowAt (rows : List (List String)) :
    ∀ (y z : Rat), PdfEv.rowAt z ∈ rowsLoop rows y → 60 ≤ z := by
  induction rows with
  | nil => intro y z h; cases h
  | cons r rest ih =>
    intro y z h
    unfold rowsLoop at h
    by_cases hy : y < 60
    · rw [if_pos hy] at h
      have h80 : ¬(a4Height - 40 < 80) := by
        unfold a4Height; norm_num
      unfold drawTableHeader at h
      rw [if_neg h80] at h
      simp only [List.cons_append, List.nil_append, List.mem_cons] at h
      rcases h with h | h | h | h
      · cases h
      · cases h
      · have hz : z = a4Height - 40 - 18 := by
          injection h
        rw [hz]
        unfold a4Height
        norm_num
      · exact ih _ _ h
    · rw [if_neg hy] at h
      rcases List.mem_cons.mp h with h | h
      · have hz : z = y := by injection h
        rw [hz]
        exact le_of_not_lt hy
      · exact ih _ _ h

/-- C8: in `_build_table_pdf` every table row is drawn with the y coordinate
at least 60: a row reached with y below 60 first forces a new page (y reset to
the page height minus 40) and a table-header redraw (taking y to height - 58)
before the row is drawn. -/
theorem build_table_pdf_rows_on_page (title : String) (hls : List String)
    (cols : List (String × Rat)) (rows : List (List String)) (y : Rat)
    (hy : PdfEv.rowAt y ∈ build_table_pdf title hls cols rows) : 60 ≤ y := by
  unfold build_table_pdf at hy
  rw [List.mem_append] at hy
  rcases hy with h | h
  · exact absurd h (drawTableHeader_no_row _ _)
  · exact rowsLoop_rowAt rows _ y h

theorem build_table_pdf_rows_on_page_witness :
    PdfEv.rowAt (a4Height - 88) ∈ build_table_pdf "t" [] [] [[""]] ∧
    60 ≤ a4Height - 88 := by
  have hmem : PdfEv.rowAt (a4Height - 88) ∈ build_table_pdf "t" [] [] [[""]] := by
    simp only [build_table_pdf, rowsLoop, drawTableHeader, List.length_nil]
    norm_num [a4Height]
  exact ⟨hmem, build_table_pdf_rows_on_page "t" [] [] [[""]] _ hmem⟩

/-- C9 counterexample: order 1 of user "u1" has category "Капля" and
product_id 5, and the Kapliya row 5 exists; a `save_profile_row` request for
it with quantity 3 but payload category "Оправа" reports success and updates
the order, yet the product row named by the order’s own category keeps its
old quantity (the endpoint follows the payload category instead). -/
theorem save_profile_row_category_mismatch :
    (save_profile_row dbK2 sessW (some bodyK2)).2 = Resp.json true "" 200 ∧
    (∀ q ∈ (save_profile_row dbK2 sessW (some bodyK2)).1.orders,
      q.id = 1 → q.miqdor = 3) ∧
    ¬ (∀ p ∈ (save_profile_row dbK2 sessW (some bodyK2)).1.products,
        p.table = ProductTable.kapliya ∧ p.id = 5 → p.miqdor = 3) := by
  refine ⟨by decide, by decide, ?_⟩
  intro hall
  have h5 := hall prodK (by decide) (by decide)
  simp [prodK] at h5

/-- C9 (amended): after a successful `save_profile_row` edit of an unsent
order, the order’s quantity is `max 0 (requested)` — never negative — and its
note is the request note; the product row updated to the same quantity and
note is the one in the table named by the request’s category (falling back to
the order’s category only when the request’s is blank), and when that
category is not one of the seven known labels no product row is touched even
though the response still reports success. -/
theorem save_profile_row_updates (db : Db) (sess : Session) (data : ProfileBody) (o : OrderRow)
    (hlog : optTruthy sess.userId = true)
    (hid : 0 < data.Id.getD 0)
    (ho : db.orders.find? (fun q => (q.id : Int) == data.Id.getD 0 &&
        q.user_id == get_user_id sess && q.is_sent == false) = some o) :
    0 ≤ max 0 (data.Miqdor.getD 0) ∧
    save_profile_row db sess (some data) =
      ({ db with
        orders := db.orders.map (fun q => if q.id == o.id then
          { q with miqdor := max 0 (data.Miqdor.getD 0),
                   izoh := pyOr data.Izoh "-" } else q),
        products :=
          match CATEGORY_MODEL (if clean_str data.Category ≠ "" then clean_str data.Category
              else pyOr o.category "") with
          | some tbl => db.products.map (fun p =>
              if p.table == tbl && p.id == o.product_id then
                { p with miqdor := max 0 (data.Miqdor.getD 0),
                         izoh := some (pyOr data.Izoh "-") } else p)
          | none => db.products },
       Resp.json true "" 200) := by
  refine ⟨le_max_left 0 _, ?_⟩
  have hses : session_user_or_json_401 sess = none := by
    simp [session_user_or_json_401, hlog]
  have hid2 : ¬(data.Id.getD 0 ≤ 0) := not_le.mpr hid
  unfold save_profile_row runM save_profile_rowM
  rw [hses]
  simp only [if_neg hid2, M.bind, dbRead, dbWrite, M.pure, ho]
  cases hc : CATEGORY_MODEL (if clean_str data.Category ≠ "" then clean_str data.Category
      else pyOr o.category "") <;>
    simp [hc, M.bind, dbWrite, M.pure]

theorem save_profile_row_updates_witness :
    (save_profile_row dbK sessW (some bodyK)).2 = Resp.json true "" 200 :=
  congrArg Prod.snd
    ((save_profile_row_updates dbK sessW bodyK ordK
      (by decide) (by decide) (by decide)).2)

/-- C10: for a logged-in non-admin session, `download_archive_pdf` answers
HTTP 403 with success false and leaves the database (in particular the
archive’s `is_pdf_downloaded` flag) unchanged whenever the archive’s filial
differs from the session branch or its user_full_name from the session full
name; when both match, the PDF is served and exactly that archive’s
`is_pdf_downloaded` flag is set; a malformed body also leaves the database
unchanged. -/
theorem download_archive_pdf_permissions (db : Db) (sess : Session) (data : ArchIdBody)
    (a : ArchiveRow)
    (hlog : optTruthy sess.userId = true)
    (hadm : sess.role ≠ some "Admin")
    (hid : 0 < data.id.getD 0)
    (hfind : db.archives.find? (fun w => (w.id : Int) == data.id.getD 0) = some a) :
    (a.filial ≠ some (get_branch sess) ∨ a.user_full_name ≠ some (get_full_name sess) →
      download_archive_pdf db sess (some data) = (db, Resp.json false "Ruxsat yo‘q." 403)) ∧
    (a.filial = some (get_branch sess) → a.user_full_name = some (get_full_name sess) →
      download_archive_pdf db sess (some data) =
        ({ db with archives := db.archives.map (fun w =>
            if w.id == a.id then { w with is_pdf_downloaded := true } else w) },
         Resp.pdfFile "archive.pdf")) ∧
    download_archive_pdf db sess none = (db, Resp.json false "JSON xato." 400) := by
  have hses : session_user_or_json_401 sess = none := by
    simp [session_user_or_json_401, hlog]
  have hid2 : ¬(data.id.getD 0 ≤ 0) := not_le.mpr hid
  have hr : (sess.role != some "Admin") = true := by
    simpa using hadm
  refine ⟨?_, ?_, ?_⟩
  · intro hmm
    have hcond : (a.filial != some (get_branch sess) ||
        a.user_full_name != some (get_full_name sess)) = true := by
      rcases hmm with hmm | hmm <;> simp [hmm]
    unfold download_archive_pdf
    rw [hses]
    simp only [if_neg hid2, hfind, hr, hcond, Bool.true_and, if_true]
  · intro hf hn
    have hcond : (a.filial != some (get_branch sess) ||
        a.user_full_name != some (get_full_name sess)) = false := by
      simp [hf, hn]
    unfold download_archive_pdf
    rw [hses]
    simp only [if_neg hid2, hfind, hr, hcond, Bool.true_and, Bool.false_eq_true, if_false]
  · unfold download_archive_pdf
    rw [hses]

theorem download_archive_pdf_permissions_witness :
    download_archive_pdf dbA sessW (some bodyA1) =
      (dbA, Resp.json false "Ruxsat yo‘q." 403) :=
  (download_archive_pdf_permissions dbA sessW bodyA1 arch1
    (by decide) (by decide) (by decide) (by decide)).1 (by decide)

/-! The add-to-cart upsert: merge keyed by name and category, accumulating
quantities. -/

theorem overrideOpt_self {α : Type} (x : Option α) : overrideOpt x x = x := by
  cases x <;> rfl

theorem overrideOptIf_true_self {α : Type} (x : Option α) :
    overrideOptIf true x x = x := by
  cases x <;> rfl

/-- C1 counterexample: submitting the same one-item payload (name "Acme",
default category, quantity 1) twice through `save_rangsiz` does not leave the
table state of the first submission: the single product row’s quantity goes
from 1 to 2, so the upsert is not idempotent. -/
theorem save_rangsiz_not_idempotent :
    (save_rangsiz emptyDb sessW (some [itemW])).1.products.map (fun p => p.miqdor) = [1] ∧
    ((save_rangsiz (save_rangsiz emptyDb sessW (some [itemW])).1 sessW
        (some [itemW])).1.products.map (fun p => p.miqdor)) = [2] ∧
    (save_rangsiz (save_rangsiz emptyDb sessW (some [itemW])).1 sessW (some [itemW])).1 ≠
      (save_rangsiz emptyDb sessW (some [itemW])).1 := by
  refine ⟨by decide, by decide, by decide⟩

/-- C1 (amended): the add-to-cart upsert is a merge-accumulate keyed by name
and category (plus dioptriya and turi when given): for every user and item
payload, the first submission creates exactly one product row and one unsent
Order row, and a second identical submission creates no further rows — it
updates the same product row and the same Order row in place, adding the
submitted quantity to each, rather than leaving the state unchanged. -/
theorem save_rangsiz_merge_accumulates (sess : Session) (it : SaveItem)
    (hlog : optTruthy sess.userId = true)
    (hn : clean_str it.nomi ≠ "")
    (hm : 0 < it.miqdor.getD 0) :
    (save_rangsiz emptyDb sess (some [it])).1.products.length = 1 ∧
    (save_rangsiz emptyDb sess (some [it])).1.orders.length = 1 ∧
    (save_rangsiz (save_rangsiz emptyDb sess (some [it])).1 sess (some [it])).1.products =
      (save_rangsiz emptyDb sess (some [it])).1.products.map
        (fun p => { p with miqdor := p.miqdor + it.miqdor.getD 0 }) ∧
    (save_rangsiz (save_rangsiz emptyDb sess (some [it])).1 sess (some [it])).1.orders =
      (save_rangsiz emptyDb sess (some [it])).1.orders.map
        (fun o => { o with miqdor := o.miqdor + it.miqdor.getD 0 }) := by
  have hses : session_user_or_json_401 sess = none := by
    simp [session_user_or_json_401, hlog]
  have hm2 : ¬(it.miqdor.getD 0 ≤ 0) := not_le.mpr hm
  by_cases hd : clean_str it.dioptriya = "" <;> by_cases ht : clean_str it.turi = "" <;>
    simp [save_rangsiz, runM, save_rangsizM, hses, mForEach, rangsizStep, hn, hm2, hd, ht,
      merge_save_product_and_order, M.bind, M.pure, dbRead, dbWrite, atomic,
      mergeMatches, iexact, iexactOpt, applyMergeUpdate, saveProductRow,
      overrideOpt, overrideOptIf, overrideOpt_self, overrideOptIf_true_self,
      freshProductId, freshOrderId, freshId, List.find?, pyOr,
      ProductTable.hasRasm, ProductTable.hasTuri, emptyDb] <;>
    exact ⟨by cases it.rasm <;> rfl, by cases it.narx <;> rfl⟩

theorem save_rangsiz_merge_accumulates_witness :
    (save_rangsiz (save_rangsiz emptyDb sessW (some [itemW])).1 sessW
        (some [itemW])).1.products =
      (save_rangsiz emptyDb sessW (some [itemW])).1.products.map
        (fun p => { p with miqdor := p.miqdor + itemW.miqdor.getD 0 }) :=
  (save_rangsiz_merge_accumulates sessW itemW (by decide) (by decide) (by decide)).2.2.1
